import Mathlib

/-!
Verification of the chuk-mcp-time server core against its design
specification.

The embedding models `src/chuk_mcp_time/models.py` and
`src/chuk_mcp_time/server.py` directly.  The consensus engine
(`consensus.py`), the NTP fan-out client (`ntp_client.py`) and the
configuration loader (`config.py`) are imported by `server.py` but their
sources are not part of the repository snapshot; where a claim depends on
them they are modelled from the specification text (each such definition
carries a doc comment starting with `Modelled from the spec:`).

Python floats are embedded as rationals (ℚ); Python `int()` truncation is
embedded explicitly; wall-clock readings, ISO-8601 rendering, float
formatting, the per-server NTP outcome, and IANA timezone conversion are
non-deterministic or external effects and enter the model as explicit
parameters gathered in an `Env` record.
-/

/-- Accuracy mode for time queries (models.py `AccuracyMode`). -/
inductive AccuracyMode where
  | fast
  | accurate
deriving DecidableEq, Repr

/-- Consensus calculation method (models.py `ConsensusMethod`).  The Python
enum has exactly these two members. -/
inductive ConsensusMethod where
  | median_with_outlier_rejection
  | system_fallback
deriving DecidableEq, Repr, Fintype

/-- The wire string value of each `ConsensusMethod` member, as declared in
models.py (`"median_with_outlier_rejection"`, `"system_fallback"`). -/
def ConsensusMethod.value : ConsensusMethod → String
  | .median_with_outlier_rejection => "median_with_outlier_rejection"
  | .system_fallback => "system_fallback"

/-- System clock status relative to trusted time (models.py `ClockStatus`). -/
inductive ClockStatus where
  | ok
  | drift
  | error
deriving DecidableEq, Repr

/-- NTP error kinds (models.py `NTPError`). -/
inductive NTPError where
  | timeout
  | dns_error
  | network_error
  | parse_error
deriving DecidableEq, Repr

/-- Response from one NTP server (models.py `NTPResponse`). -/
structure NTPResponse where
  server : String
  timestamp : ℚ
  rtt_ms : ℚ
  stratum : ℤ
  success : Bool
  error : Option String
  error_type : Option NTPError
deriving Repr

/-- Sample from a single time source (models.py `SourceSample`). -/
structure SourceSample where
  server : String
  success : Bool
  timestamp : Option ℚ
  rtt_ms : Option ℚ
  stratum : Option ℤ
  error : Option String
deriving Repr, DecidableEq

/-- Result of the time consensus calculation (models.py `TimeConsensus`). -/
structure TimeConsensus where
  timestamp : ℚ
  iso8601_time : String
  epoch_ms : ℤ
  sources_used : ℕ
  total_sources : ℕ
  consensus_method : ConsensusMethod
  estimated_error_ms : ℚ
  source_samples : List SourceSample
  warnings : List String
  system_time : String
  system_delta_ms : ℚ
deriving Repr

/-- Response of the `get_time_utc` tool (models.py `TimeResponse`).  The
`consensus_method` field is the string value of the enum member, as in the Python model;
`source_samples` keeps the structured samples (the Python code serialises
them to dicts field-for-field via `model_dump`). -/
structure TimeResponse where
  iso8601_time : String
  epoch_ms : ℤ
  sources_used : ℕ
  total_sources : ℕ
  consensus_method : String
  estimated_error_ms : ℚ
  source_samples : List SourceSample
  warnings : List String
  system_time : String
  system_delta_ms : ℚ
  query_duration_ms : ℚ
  latency_compensated : Bool
deriving Repr

/-- Response of the `get_time_for_timezone` tool (models.py
`TimezoneResponse`), extending `TimeResponse`. -/
structure TimezoneResponse extends TimeResponse where
  timezone : String
  local_time : String
deriving Repr

/-- Response of the `compare_system_clock` tool (models.py
`ClockComparisonResponse`). -/
structure ClockComparisonResponse where
  system_time : String
  trusted_time : String
  delta_ms : ℚ
  estimated_error_ms : ℚ
  status : ClockStatus
deriving Repr

/-- Static configuration consumed by server.py (config.py is not in the
snapshot; the fields are exactly those server.py reads, per the
configuration surface in the spec). -/
structure Config where
  ntp_servers : List String
  fast_mode_server_count : ℕ
  min_sources : ℕ
  max_outlier_deviation_ms : ℚ
  max_disagreement_ms : ℚ

/-- Environment of one call: external effects and readings that the Python
code obtains from the OS, the network, the float formatter and the timezone
database, made explicit.  `query_start` and `query_end` are the two
`time.time()` readings around the query (server.py lines 54 and 69);
`fresh_system_time` is the reading taken after latency compensation
(line 90); `sys_now`/`sys_now_iso` are clock readings taken by the consensus engine itself; `sentinel_error_ms` is the "untrusted" sentinel error
bound and `single_source_method` the `ConsensusMethod` member the engine
reports in its reduced-confidence tier (both internal to the absent
consensus.py, so left symbolic). -/
structure Env where
  isoOf : ℚ → String
  fmt1 : ℚ → String
  oracle : String → NTPResponse
  zoneConvert : String → ℚ → Except String String
  query_start : ℚ
  query_end : ℚ
  fresh_system_time : ℚ
  sys_now : ℚ
  sys_now_iso : String
  sentinel_error_ms : ℚ
  single_source_method : ConsensusMethod

/-- Python `int()` applied to a real number: truncation toward zero. -/
def pyInt (q : ℚ) : ℤ := if 0 ≤ q then ⌊q⌋ else ⌈q⌉

/-- Standard sample median: sort, take the middle element, or the mean of
the two middle elements when the count is even. -/
def median (xs : List ℚ) : ℚ :=
  let sorted := xs.insertionSort (· ≤ ·)
  let n := sorted.length
  if n = 0 then 0
  else if n % 2 = 1 then sorted.getD (n / 2) 0
  else (sorted.getD (n / 2 - 1) 0 + sorted.getD (n / 2) 0) / 2

/-- Largest element of a list of rationals (0 for an empty list). -/
def listMax (xs : List ℚ) : ℚ := xs.foldl max (xs.headD 0)

/-- Smallest element of a list of rationals (0 for an empty list). -/
def listMin (xs : List ℚ) : ℚ := xs.foldl min (xs.headD 0)

/-- Modelled from the spec: the Source Sample built from one NTP query
outcome (consensus.py is not in the snapshot).  Exactly one of the success
fields and the failure fields is populated, per the data model of the spec. -/
def toSourceSample (r : NTPResponse) : SourceSample :=
  if r.success then
    { server := r.server, success := true, timestamp := some r.timestamp,
      rtt_ms := some r.rtt_ms, stratum := some r.stratum, error := none }
  else
    { server := r.server, success := false, timestamp := none,
      rtt_ms := none, stratum := none, error := r.error }

/-- Modelled from the spec: `TimeConsensusEngine.compute_consensus`
(consensus.py is not in the snapshot), following spec section 4.3 step by
step: partition into successes and failures with `total_sources` the length
of the whole input; zero successes gives the system-clock fallback with a
sentinel error bound; fewer successes than `min_sources` gives the
reduced-confidence tier using the timestamp and
round-trip time of the first successful sample (the spec names a single-source tag for this tier, but the
`ConsensusMethod` enum of models.py has no such member, so the member used
is left symbolic as `env.single_source_method`); otherwise outlier
rejection around the median (skipped if it would discard everything),
median of the retained samples, error bound
`max(half the median retained round-trip, half the retained spread)`, and a
disagreement warning when the retained spread exceeds the configured
threshold.  `sources_used` counts retained samples; `source_samples` keeps
the full input in input order; `system_delta_ms = (system reading −
reconciled timestamp) × 1000`. -/
def compute_consensus (env : Env) (cfg : Config)
    (responses : List NTPResponse) : TimeConsensus :=
  let total := responses.length
  let samples := responses.map toSourceSample
  match responses.filter (fun r => r.success) with
  | [] =>
      { timestamp := env.sys_now
        iso8601_time := env.isoOf env.sys_now
        epoch_ms := pyInt (env.sys_now * 1000)
        sources_used := 0
        total_sources := total
        consensus_method := ConsensusMethod.system_fallback
        estimated_error_ms := env.sentinel_error_ms
        source_samples := samples
        warnings := ["all sources failed, using system clock"]
        system_time := env.sys_now_iso
        system_delta_ms := (env.sys_now - env.sys_now) * 1000 }
  | first :: rest =>
      if (first :: rest).length < cfg.min_sources then
        { timestamp := first.timestamp
          iso8601_time := env.isoOf first.timestamp
          epoch_ms := pyInt (first.timestamp * 1000)
          sources_used := (first :: rest).length
          total_sources := total
          consensus_method := env.single_source_method
          estimated_error_ms := first.rtt_ms
          source_samples := samples
          warnings := ["insufficient sources for full consensus, reduced confidence"]
          system_time := env.sys_now_iso
          system_delta_ms := (env.sys_now - first.timestamp) * 1000 }
      else
        let successes := first :: rest
        let med := median (successes.map (fun r => r.timestamp))
        let kept := successes.filter
          (fun r => |r.timestamp - med| * 1000 ≤ cfg.max_outlier_deviation_ms)
        let retained := if kept.isEmpty then successes else kept
        let ts := median (retained.map (fun r => r.timestamp))
        let tss := retained.map (fun r => r.timestamp)
        let spread_ms := (listMax tss - listMin tss) * 1000
        { timestamp := ts
          iso8601_time := env.isoOf ts
          epoch_ms := pyInt (ts * 1000)
          sources_used := retained.length
          total_sources := total
          consensus_method := ConsensusMethod.median_with_outlier_rejection
          estimated_error_ms :=
            max (median (retained.map (fun r => r.rtt_ms)) / 2) (spread_ms / 2)
          source_samples := samples
          warnings :=
            if spread_ms > cfg.max_disagreement_ms
            then ["sources disagree beyond the configured threshold"]
            else []
          system_time := env.sys_now_iso
          system_delta_ms := (env.sys_now - ts) * 1000 }

/-- Modelled from the spec: the NTP fan-out `query_multiple_servers`
(ntp_client.py is not in the snapshot).  Per spec section 4.2 it returns
one sample per input descriptor, in input order; the per-server outcome is
the oracle of the environment. -/
def query_multiple_servers (oracle : String → NTPResponse)
    (servers : List String) : List NTPResponse :=
  servers.map oracle

/-- Server subset selection of `get_time_utc` (server.py lines 57-60):
fast mode takes the configured-size front of the server list, any other
mode takes the whole list. -/
def select_servers (cfg : Config) (mode : AccuracyMode) : List String :=
  if mode = AccuracyMode.fast then
    cfg.ntp_servers.take cfg.fast_mode_server_count
  else
    cfg.ntp_servers

/-- The warning text appended when latency compensation is significant
(server.py line 82); `env.fmt1` is the one-decimal float formatting of Python. -/
def latency_warning (env : Env) (query_duration_ms : ℚ) : String :=
  "Applied +" ++ env.fmt1 query_duration_ms ++ "ms latency compensation to timestamp"

/-- The post-consensus finalisation of `get_time_utc` (server.py lines
69-119): computes the query duration, optionally applies latency
compensation (shifted timestamp, inflated error, recomputed system delta
against a fresh clock reading, conditional warning), and assembles the
`TimeResponse`. -/
def get_time_utc_core (env : Env) (consensus : TimeConsensus)
    (compensate_latency : Bool) : TimeResponse :=
  let query_duration := env.query_end - env.query_start
  let query_duration_ms := query_duration * 1000
  if compensate_latency then
    let compensated_timestamp := consensus.timestamp + query_duration
    { iso8601_time := env.isoOf compensated_timestamp
      epoch_ms := pyInt (compensated_timestamp * 1000)
      sources_used := consensus.sources_used
      total_sources := consensus.total_sources
      consensus_method := consensus.consensus_method.value
      estimated_error_ms := consensus.estimated_error_ms + query_duration_ms * (1 / 10)
      source_samples := consensus.source_samples
      warnings :=
        if query_duration_ms > 100
        then consensus.warnings ++ [latency_warning env query_duration_ms]
        else consensus.warnings
      system_time := consensus.system_time
      system_delta_ms := (env.fresh_system_time - compensated_timestamp) * 1000
      query_duration_ms := query_duration_ms
      latency_compensated := compensate_latency }
  else
    { iso8601_time := consensus.iso8601_time
      epoch_ms := consensus.epoch_ms
      sources_used := consensus.sources_used
      total_sources := consensus.total_sources
      consensus_method := consensus.consensus_method.value
      estimated_error_ms := consensus.estimated_error_ms
      source_samples := consensus.source_samples
      warnings := consensus.warnings
      system_time := consensus.system_time
      system_delta_ms := consensus.system_delta_ms
      query_duration_ms := query_duration_ms
      latency_compensated := compensate_latency }

/-- The `get_time_utc` tool (server.py lines 32-119): select the server
subset for the mode, fan out the NTP queries, compute consensus, finalise. -/
def get_time_utc (env : Env) (cfg : Config) (mode : AccuracyMode)
    (compensate_latency : Bool) : TimeResponse :=
  get_time_utc_core env
    (compute_consensus env cfg
      (query_multiple_servers env.oracle (select_servers cfg mode)))
    compensate_latency

/-- The `get_time_for_timezone` tool (server.py lines 123-172): get the UTC
consensus, then convert `epoch_ms / 1000` to the requested zone; on a
conversion failure keep every base field, append a warning naming the zone,
and put an `"ERROR: "`-prefixed message in `local_time`. -/
def get_time_for_timezone (env : Env) (cfg : Config) (timezone_name : String)
    (mode : AccuracyMode) (compensate_latency : Bool) : TimezoneResponse :=
  match env.zoneConvert timezone_name
      (((get_time_utc env cfg mode compensate_latency).epoch_ms : ℚ) / 1000) with
  | Except.ok local_time =>
      { toTimeResponse := get_time_utc env cfg mode compensate_latency
        timezone := timezone_name
        local_time := local_time }
  | Except.error e =>
      { toTimeResponse :=
          { get_time_utc env cfg mode compensate_latency with
            warnings := (get_time_utc env cfg mode compensate_latency).warnings ++
              ["Failed to convert to timezone " ++ timezone_name ++ ": " ++ e] }
        timezone := timezone_name
        local_time := "ERROR: " ++ e }

/-- Drift classification of `compare_system_clock` (server.py lines
193-199). -/
def clock_status (delta_ms : ℚ) : ClockStatus :=
  if |delta_ms| < 100 then ClockStatus.ok
  else if |delta_ms| < 1000 then ClockStatus.drift
  else ClockStatus.error

/-- The `compare_system_clock` tool (server.py lines 176-207): runs
`get_time_utc` with the default latency compensation and classifies the
reported system delta. -/
def compare_system_clock (env : Env) (cfg : Config)
    (mode : AccuracyMode) : ClockComparisonResponse :=
  let tr := get_time_utc env cfg mode true
  { system_time := tr.system_time
    trusted_time := tr.iso8601_time
    delta_ms := tr.system_delta_ms
    estimated_error_ms := tr.estimated_error_ms
    status := clock_status tr.system_delta_ms }

/-! ## Concrete fixtures used by witnesses -/

/-- A concrete failed NTP outcome (a timeout), for exercising the model. -/
def failedNTP (s : String) : NTPResponse :=
  { server := s, timestamp := 0, rtt_ms := 0, stratum := 0, success := false,
    error := some "timed out", error_type := some NTPError.timeout }

/-- A concrete successful NTP outcome, for exercising the model. -/
def okNTP (s : String) : NTPResponse :=
  { server := s, timestamp := 1700000000, rtt_ms := 20, stratum := 2,
    success := true, error := none, error_type := none }

/-- A concrete environment in which every server times out and the timezone
database resolves no zone. -/
def testEnv : Env :=
  { isoOf := fun _ => "1970-01-01T00:00:00+00:00"
    fmt1 := fun _ => "0.0"
    oracle := failedNTP
    zoneConvert := fun _ _ => Except.error "unknown zone"
    query_start := 0
    query_end := 0
    fresh_system_time := 0
    sys_now := 0
    sys_now_iso := "1970-01-01T00:00:00+00:00"
    sentinel_error_ms := 1000000
    single_source_method := ConsensusMethod.median_with_outlier_rejection }

/-- A concrete environment in which every server answers and the timezone
database resolves every zone. -/
def testEnvOk : Env :=
  { testEnv with
    oracle := okNTP
    zoneConvert := fun _ _ => Except.ok "2023-11-14T17:13:20-05:00" }

/-- A concrete configuration with three servers. -/
def testCfg : Config :=
  { ntp_servers := ["a.example", "b.example", "c.example"]
    fast_mode_server_count := 2
    min_sources := 2
    max_outlier_deviation_ms := 500
    max_disagreement_ms := 100 }

/-- A concrete configuration whose server list is empty. -/
def emptyCfg : Config :=
  { ntp_servers := []
    fast_mode_server_count := 3
    min_sources := 3
    max_outlier_deviation_ms := 500
    max_disagreement_ms := 100 }

/-- A concrete consensus record, for exercising the finalisation step. -/
def testConsensus : TimeConsensus :=
  { timestamp := 1700000000
    iso8601_time := "2023-11-14T22:13:20+00:00"
    epoch_ms := 1700000000000
    sources_used := 3
    total_sources := 4
    consensus_method := ConsensusMethod.median_with_outlier_rejection
    estimated_error_ms := 10
    source_samples := []
    warnings := []
    system_time := "2023-11-14T22:13:20+00:00"
    system_delta_ms := 5 }

/-! ## Helper lemmas about the finalisation step -/

theorem core_sources_used (env : Env) (c : TimeConsensus) (b : Bool) :
    (get_time_utc_core env c b).sources_used = c.sources_used := by
  cases b <;> rfl

theorem core_total_sources (env : Env) (c : TimeConsensus) (b : Bool) :
    (get_time_utc_core env c b).total_sources = c.total_sources := by
  cases b <;> rfl

theorem core_consensus_method (env : Env) (c : TimeConsensus) (b : Bool) :
    (get_time_utc_core env c b).consensus_method = c.consensus_method.value := by
  cases b <;> rfl

theorem consensus_total (env : Env) (cfg : Config) (rs : List NTPResponse) :
    (compute_consensus env cfg rs).total_sources = rs.length := by
  unfold compute_consensus
  dsimp only
  split
  · rfl
  · split <;> rfl

theorem consensus_used_le_total (env : Env) (cfg : Config)
    (rs : List NTPResponse) :
    (compute_consensus env cfg rs).sources_used
      ≤ (compute_consensus env cfg rs).total_sources := by
  unfold compute_consensus
  dsimp only
  split
  · exact Nat.zero_le _
  · next first rest heq =>
    have hsucc : (first :: rest).length ≤ rs.length := by
      rw [← heq]; exact List.length_filter_le _ _
    split
    · exact hsucc
    · dsimp only
      split
      · exact hsucc
      · exact le_trans (List.length_filter_le _ _) hsucc

/-! ## Claim theorems -/

/-- C1: with latency compensation requested, `get_time_utc` returns the
consensus timestamp shifted forward by the elapsed query duration (both as
the ISO string and as the truncated epoch milliseconds), an estimated error
equal to the consensus error plus one tenth of the elapsed duration in
milliseconds, a system-clock delta recomputed as (fresh system reading −
compensated timestamp) × 1000, and appends the latency-compensation warning
exactly when the elapsed duration exceeds 100 ms. -/
theorem get_time_utc_latency_compensation (env : Env) (c : TimeConsensus) :
    (get_time_utc_core env c true).iso8601_time
        = env.isoOf (c.timestamp + (env.query_end - env.query_start))
    ∧ (get_time_utc_core env c true).epoch_ms
        = pyInt ((c.timestamp + (env.query_end - env.query_start)) * 1000)
    ∧ (get_time_utc_core env c true).estimated_error_ms
        = c.estimated_error_ms + (env.query_end - env.query_start) * 1000 * (1 / 10)
    ∧ (get_time_utc_core env c true).system_delta_ms
        = (env.fresh_system_time
            - (c.timestamp + (env.query_end - env.query_start))) * 1000
    ∧ ((get_time_utc_core env c true).warnings
          = c.warnings
            ++ [latency_warning env ((env.query_end - env.query_start) * 1000)]
        ↔ (env.query_end - env.query_start) * 1000 > 100) := by
  refine ⟨rfl, rfl, rfl, rfl, ?_⟩
  show (if (env.query_end - env.query_start) * 1000 > 100
      then c.warnings
        ++ [latency_warning env ((env.query_end - env.query_start) * 1000)]
      else c.warnings)
      = c.warnings
        ++ [latency_warning env ((env.query_end - env.query_start) * 1000)]
    ↔ (env.query_end - env.query_start) * 1000 > 100
  constructor
  · intro h
    by_contra hd
    rw [if_neg hd] at h
    simpa using congrArg List.length h
  · intro h
    rw [if_pos h]

/-- C2: the drift classification used by `compare_system_clock` maps
`|delta| < 100` to ok, `100 ≤ |delta| < 1000` to drift and `1000 ≤ |delta|`
to error; in particular 99.9 is ok, 100 is drift, 999.9 is drift, 1000 is
error; and the status reported by `compare_system_clock` is exactly this
classification of the system delta of the underlying `get_time_utc` call. -/
theorem compare_system_clock_classification :
    (∀ d : ℚ,
        (|d| < 100 → clock_status d = ClockStatus.ok)
        ∧ (100 ≤ |d| → |d| < 1000 → clock_status d = ClockStatus.drift)
        ∧ (1000 ≤ |d| → clock_status d = ClockStatus.error))
    ∧ clock_status (999 / 10) = ClockStatus.ok
    ∧ clock_status 100 = ClockStatus.drift
    ∧ clock_status (9999 / 10) = ClockStatus.drift
    ∧ clock_status 1000 = ClockStatus.error
    ∧ ∀ (env : Env) (cfg : Config) (mode : AccuracyMode),
        (compare_system_clock env cfg mode).status
          = clock_status (get_time_utc env cfg mode true).system_delta_ms := by
  refine ⟨?_, ?_, ?_, ?_, ?_, fun env cfg mode => rfl⟩
  · intro d
    refine ⟨?_, ?_, ?_⟩ <;> intro h
    · exact if_pos h
    · intro h2
      unfold clock_status
      rw [if_neg (by linarith), if_pos h2]
    · unfold clock_status
      rw [if_neg (by linarith), if_neg (by linarith)]
  · unfold clock_status
    rw [if_pos (by rw [abs_of_nonneg] <;> norm_num)]
  · unfold clock_status
    rw [if_neg (by rw [abs_of_nonneg] <;> norm_num),
      if_pos (by rw [abs_of_nonneg] <;> norm_num)]
  · unfold clock_status
    rw [if_neg (by rw [abs_of_nonneg] <;> norm_num),
      if_pos (by rw [abs_of_nonneg] <;> norm_num)]
  · unfold clock_status
    rw [if_neg (by rw [abs_of_nonneg] <;> norm_num),
      if_neg (by rw [abs_of_nonneg] <;> norm_num)]

/-- C2 witness: the classification applied at the concrete delta 99.9. -/
theorem compare_system_clock_classification_witness :
    |(999 / 10 : ℚ)| < 100 ∧ clock_status (999 / 10) = ClockStatus.ok :=
  ⟨by rw [abs_of_nonneg] <;> norm_num,
    (compare_system_clock_classification.1 (999 / 10)).1
      (by rw [abs_of_nonneg] <;> norm_num)⟩

/-- C5: for the same underlying consensus result and a non-negative elapsed
query duration, turning latency compensation on never decreases the
reported estimated error. -/
theorem latency_compensation_monotone (env : Env) (c : TimeConsensus)
    (h : env.query_start ≤ env.query_end) :
    (get_time_utc_core env c false).estimated_error_ms
      ≤ (get_time_utc_core env c true).estimated_error_ms := by
  show c.estimated_error_ms
    ≤ c.estimated_error_ms + (env.query_end - env.query_start) * 1000 * (1 / 10)
  nlinarith [sub_nonneg.mpr h]

/-- C5 witness: monotonicity at a concrete environment and consensus. -/
theorem latency_compensation_monotone_witness :
    testEnv.query_start ≤ testEnv.query_end
    ∧ (get_time_utc_core testEnv testConsensus false).estimated_error_ms
        ≤ (get_time_utc_core testEnv testConsensus true).estimated_error_ms :=
  ⟨by norm_num [testEnv],
    latency_compensation_monotone testEnv testConsensus (by norm_num [testEnv])⟩

/-- C8: the reported system-clock delta is (system reading − reconciled
timestamp) × 1000 milliseconds, so it is positive exactly when the system
clock is ahead of the consensus time; with latency compensation the delta
is computed against the compensated timestamp from the fresh reading taken
after compensation, without compensation it is the delta computed by the consensus engine,
which is (engine clock reading − reconciled timestamp) × 1000. -/
theorem system_delta_ms_formula (env : Env) (cfg : Config) (c : TimeConsensus) :
    (get_time_utc_core env c true).system_delta_ms
        = (env.fresh_system_time
            - (c.timestamp + (env.query_end - env.query_start))) * 1000
    ∧ (0 < (get_time_utc_core env c true).system_delta_ms
        ↔ c.timestamp + (env.query_end - env.query_start) < env.fresh_system_time)
    ∧ (get_time_utc_core env c false).system_delta_ms = c.system_delta_ms
    ∧ ∀ rs : List NTPResponse,
        (compute_consensus env cfg rs).system_delta_ms
          = (env.sys_now - (compute_consensus env cfg rs).timestamp) * 1000 := by
  refine ⟨rfl, ?_, rfl, ?_⟩
  · show 0 < (env.fresh_system_time
        - (c.timestamp + (env.query_end - env.query_start))) * 1000
      ↔ c.timestamp + (env.query_end - env.query_start) < env.fresh_system_time
    constructor <;> intro h <;> nlinarith
  · intro rs
    unfold compute_consensus
    dsimp only
    split
    · rfl
    · split <;> rfl

/-- C10: with latency compensation off, `get_time_utc` passes the consensus
fields through unchanged (ISO string, epoch milliseconds, estimated error,
warnings, system delta), and the `latency_compensated` flag always equals
the `compensate_latency` argument. -/
theorem no_compensation_passthrough (env : Env) (c : TimeConsensus) :
    (get_time_utc_core env c false).iso8601_time = c.iso8601_time
    ∧ (get_time_utc_core env c false).epoch_ms = c.epoch_ms
    ∧ (get_time_utc_core env c false).estimated_error_ms = c.estimated_error_ms
    ∧ (get_time_utc_core env c false).warnings = c.warnings
    ∧ (get_time_utc_core env c false).system_delta_ms = c.system_delta_ms
    ∧ ∀ b : Bool, (get_time_utc_core env c b).latency_compensated = b := by
  refine ⟨rfl, rfl, rfl, rfl, rfl, ?_⟩
  intro b
  cases b <;> rfl

/-- C4 counterexample: the consensus-method type declared in models.py has
exactly two members, and neither carries a single-source tag, so the method
tag is not one of three values and a single-source tag is not a possible
value of the type. -/
theorem consensus_method_no_single_source :
    Fintype.card ConsensusMethod = 2
    ∧ ConsensusMethod.value ConsensusMethod.median_with_outlier_rejection
        ≠ "single_source"
    ∧ ConsensusMethod.value ConsensusMethod.system_fallback ≠ "single_source"
    ∧ ConsensusMethod.value ConsensusMethod.median_with_outlier_rejection
        ≠ "single-source"
    ∧ ConsensusMethod.value ConsensusMethod.system_fallback ≠ "single-source" := by
  refine ⟨by decide, by decide, by decide, by decide, by decide⟩

/-- C4 amended: every Consensus Result method tag is one of exactly two
values, the outlier-rejected-median tag or the system-fallback tag; the
single-source tag is not a value of the consensus-method type, and every
`get_time_utc` response carries one of the two tag strings. -/
theorem consensus_method_two_values :
    (∀ m : ConsensusMethod,
        m = ConsensusMethod.median_with_outlier_rejection
        ∨ m = ConsensusMethod.system_fallback)
    ∧ (∀ m : ConsensusMethod, ConsensusMethod.value m ≠ "single_source")
    ∧ ∀ (env : Env) (cfg : Config) (mode : AccuracyMode) (comp : Bool),
        (get_time_utc env cfg mode comp).consensus_method
            = "median_with_outlier_rejection"
        ∨ (get_time_utc env cfg mode comp).consensus_method
            = "system_fallback" := by
  refine ⟨fun m => by cases m <;> simp, fun m => by cases m <;> decide, ?_⟩
  intro env cfg mode comp
  rw [get_time_utc, core_consensus_method]
  cases (compute_consensus env cfg
      (query_multiple_servers env.oracle (select_servers cfg mode))).consensus_method
  · left; rfl
  · right; rfl

/-- C6: fast mode queries exactly the configured-length front of the server
list and accurate mode queries all configured servers; the returned
`total_sources` equals the number of servers queried for the mode, and
`sources_used ≤ total_sources` always holds. -/
theorem mode_selection_and_source_counts (env : Env) (cfg : Config) :
    select_servers cfg AccuracyMode.fast
        = cfg.ntp_servers.take cfg.fast_mode_server_count
    ∧ select_servers cfg AccuracyMode.accurate = cfg.ntp_servers
    ∧ (∀ (mode : AccuracyMode) (comp : Bool),
        (get_time_utc env cfg mode comp).total_sources
          = (select_servers cfg mode).length)
    ∧ ∀ (mode : AccuracyMode) (comp : Bool),
        (get_time_utc env cfg mode comp).sources_used
          ≤ (get_time_utc env cfg mode comp).total_sources := by
  refine ⟨rfl, rfl, ?_, ?_⟩
  · intro mode comp
    rw [get_time_utc, core_total_sources, consensus_total,
      query_multiple_servers, List.length_map]
  · intro mode comp
    rw [get_time_utc, core_sources_used, core_total_sources]
    exact consensus_used_le_total _ _ _

/-- C9 counterexample: a call with an empty configured server list does not
fail synchronously; it flows through the pipeline and returns an ordinary
degraded-but-answered result with zero sources and the system-fallback
method tag. -/
theorem empty_server_list_counterexample :
    (get_time_utc testEnv emptyCfg AccuracyMode.fast true).total_sources = 0
    ∧ (get_time_utc testEnv emptyCfg AccuracyMode.fast true).sources_used = 0
    ∧ (get_time_utc testEnv emptyCfg AccuracyMode.fast true).consensus_method
        = "system_fallback"
    ∧ (get_time_utc testEnv emptyCfg AccuracyMode.fast true).warnings
        = ["all sources failed, using system clock"] := by
  refine ⟨rfl, rfl, rfl, ?_⟩
  show (if ((0 : ℚ) - 0) * 1000 > 100
      then ["all sources failed, using system clock"]
        ++ [latency_warning testEnv (((0 : ℚ) - 0) * 1000)]
      else ["all sources failed, using system clock"])
    = ["all sources failed, using system clock"]
  rw [if_neg (by norm_num)]

/-- C9 amended: the core has no rejection path for invalid requests: a call
with an empty server list (in either mode, with or without compensation)
still returns a degraded system-fallback answer with `total_sources = 0`
and `sources_used = 0` rather than failing synchronously; network
conditions likewise never produce a fatal error (every call returns a
`TimeResponse`). -/
theorem empty_server_list_returns_fallback (env : Env) (cfg : Config)
    (mode : AccuracyMode) (comp : Bool) (h : cfg.ntp_servers = []) :
    (get_time_utc env cfg mode comp).total_sources = 0
    ∧ (get_time_utc env cfg mode comp).sources_used = 0
    ∧ (get_time_utc env cfg mode comp).consensus_method = "system_fallback" := by
  have hsel : select_servers cfg mode = [] := by
    unfold select_servers
    rw [h]
    cases mode <;> simp
  refine ⟨?_, ?_, ?_⟩
  · rw [get_time_utc, hsel, core_total_sources, consensus_total]
    rfl
  · rw [get_time_utc, hsel, core_sources_used]
    rfl
  · rw [get_time_utc, hsel, core_consensus_method]
    rfl

/-- C9 witness for the amended claim: the fallback behaviour at the
concrete empty configuration in accurate mode without compensation. -/
theorem empty_server_list_returns_fallback_witness :
    emptyCfg.ntp_servers = []
    ∧ ((get_time_utc testEnv emptyCfg AccuracyMode.accurate false).total_sources = 0
      ∧ (get_time_utc testEnv emptyCfg AccuracyMode.accurate false).sources_used = 0
      ∧ (get_time_utc testEnv emptyCfg AccuracyMode.accurate false).consensus_method
          = "system_fallback") :=
  ⟨rfl, empty_server_list_returns_fallback testEnv emptyCfg
    AccuracyMode.accurate false rfl⟩

/-- C3: when the requested timezone name is unresolvable, the response
keeps the timezone field, puts an `"ERROR: "`-prefixed message in
`local_time`, appends to the warnings one message naming the requested
zone, and leaves every base UTC field equal to the corresponding field of
the underlying `get_time_utc` result. -/
theorem get_time_for_timezone_error_path (env : Env) (cfg : Config)
    (name : String) (mode : AccuracyMode) (comp : Bool) (e : String)
    (h : env.zoneConvert name
        (((get_time_utc env cfg mode comp).epoch_ms : ℚ) / 1000)
      = Except.error e) :
    (∃ rest, (get_time_for_timezone env cfg name mode comp).local_time
        = "ERROR: " ++ rest)
    ∧ (get_time_for_timezone env cfg name mode comp).timezone = name
    ∧ (get_time_for_timezone env cfg name mode comp).warnings
        = (get_time_utc env cfg mode comp).warnings
          ++ ["Failed to convert to timezone " ++ name ++ ": " ++ e]
    ∧ (get_time_for_timezone env cfg name mode comp).iso8601_time
        = (get_time_utc env cfg mode comp).iso8601_time
    ∧ (get_time_for_timezone env cfg name mode comp).epoch_ms
        = (get_time_utc env cfg mode comp).epoch_ms
    ∧ (get_time_for_timezone env cfg name mode comp).sources_used
        = (get_time_utc env cfg mode comp).sources_used
    ∧ (get_time_for_timezone env cfg name mode comp).total_sources
        = (get_time_utc env cfg mode comp).total_sources
    ∧ (get_time_for_timezone env cfg name mode comp).consensus_method
        = (get_time_utc env cfg mode comp).consensus_method
    ∧ (get_time_for_timezone env cfg name mode comp).estimated_error_ms
        = (get_time_utc env cfg mode comp).estimated_error_ms
    ∧ (get_time_for_timezone env cfg name mode comp).source_samples
        = (get_time_utc env cfg mode comp).source_samples
    ∧ (get_time_for_timezone env cfg name mode comp).system_time
        = (get_time_utc env cfg mode comp).system_time
    ∧ (get_time_for_timezone env cfg name mode comp).system_delta_ms
        = (get_time_utc env cfg mode comp).system_delta_ms
    ∧ (get_time_for_timezone env cfg name mode comp).query_duration_ms
        = (get_time_utc env cfg mode comp).query_duration_ms
    ∧ (get_time_for_timezone env cfg name mode comp).latency_compensated
        = (get_time_utc env cfg mode comp).latency_compensated := by
  unfold get_time_for_timezone
  rw [h]
  exact ⟨⟨e, rfl⟩, rfl, rfl, rfl, rfl, rfl, rfl, rfl, rfl, rfl, rfl, rfl,
    rfl, rfl⟩

/-- C3 witness: the error path at a concrete environment whose timezone
database resolves no zone. -/
theorem get_time_for_timezone_error_path_witness :
    testEnv.zoneConvert "Invalid/Zone"
        (((get_time_utc testEnv testCfg AccuracyMode.fast true).epoch_ms : ℚ)
          / 1000)
      = Except.error "unknown zone"
    ∧ ∃ rest,
        (get_time_for_timezone testEnv testCfg "Invalid/Zone"
            AccuracyMode.fast true).local_time = "ERROR: " ++ rest :=
  ⟨rfl, (get_time_for_timezone_error_path testEnv testCfg "Invalid/Zone"
    AccuracyMode.fast true "unknown zone" rfl).1⟩

/-- C7: when the requested timezone name resolves, `local_time` is the
rendering by the timezone collaborator, in the requested zone, of the instant
`epoch_ms / 1000` of the returned UTC result, the `timezone` field equals
the requested name, and the base UTC fields are exactly the underlying
`get_time_utc` result. -/
theorem get_time_for_timezone_success_path (env : Env) (cfg : Config)
    (name : String) (mode : AccuracyMode) (comp : Bool) (loc : String)
    (h : env.zoneConvert name
        (((get_time_utc env cfg mode comp).epoch_ms : ℚ) / 1000)
      = Except.ok loc) :
    (get_time_for_timezone env cfg name mode comp).local_time = loc
    ∧ (get_time_for_timezone env cfg name mode comp).timezone = name
    ∧ (get_time_for_timezone env cfg name mode comp).toTimeResponse
        = get_time_utc env cfg mode comp := by
  unfold get_time_for_timezone
  rw [h]
  exact ⟨rfl, rfl, rfl⟩

/-- C7 witness: the success path at a concrete environment whose timezone
database resolves every zone. -/
theorem get_time_for_timezone_success_path_witness :
    testEnvOk.zoneConvert "America/New_York"
        (((get_time_utc testEnvOk testCfg AccuracyMode.fast true).epoch_ms : ℚ)
          / 1000)
      = Except.ok "2023-11-14T17:13:20-05:00"
    ∧ (get_time_for_timezone testEnvOk testCfg "America/New_York"
        AccuracyMode.fast true).local_time = "2023-11-14T17:13:20-05:00" :=
  ⟨rfl, (get_time_for_timezone_success_path testEnvOk testCfg "America/New_York"
    AccuracyMode.fast true "2023-11-14T17:13:20-05:00" rfl).1⟩

/-- C1 witness: the compensation arithmetic at a concrete environment and
consensus. -/
theorem get_time_utc_latency_compensation_witness :
    (get_time_utc_core testEnv testConsensus true).estimated_error_ms
      = testConsensus.estimated_error_ms
        + (testEnv.query_end - testEnv.query_start) * 1000 * (1 / 10) :=
  (get_time_utc_latency_compensation testEnv testConsensus).2.2.1

/-- C4 witness for the amended claim: the method tag of a concrete call is
one of the two enum strings. -/
theorem consensus_method_two_values_witness :
    (get_time_utc testEnv testCfg AccuracyMode.fast true).consensus_method
        = "median_with_outlier_rejection"
    ∨ (get_time_utc testEnv testCfg AccuracyMode.fast true).consensus_method
        = "system_fallback" :=
  consensus_method_two_values.2.2 testEnv testCfg AccuracyMode.fast true

/-- C6 witness: the source-count invariant at a concrete call. -/
theorem mode_selection_and_source_counts_witness :
    (get_time_utc testEnv testCfg AccuracyMode.fast true).sources_used
      ≤ (get_time_utc testEnv testCfg AccuracyMode.fast true).total_sources :=
  (mode_selection_and_source_counts testEnv testCfg).2.2.2 AccuracyMode.fast true

/-- C8 witness: the uncompensated delta pass-through at a concrete call. -/
theorem system_delta_ms_formula_witness :
    (get_time_utc_core testEnv testConsensus false).system_delta_ms
      = testConsensus.system_delta_ms :=
  (system_delta_ms_formula testEnv testCfg testConsensus).2.2.1

/-- C10 witness: the warnings pass-through at a concrete call. -/
theorem no_compensation_passthrough_witness :
    (get_time_utc_core testEnv testConsensus false).warnings
      = testConsensus.warnings :=
  (no_compensation_passthrough testEnv testConsensus).2.2.2.1
